import Mathlib

/-!
Verification of the prediction request pipeline of `app.py` (a Flask app
serving a breast-cancer classifier).

The handler `predict` (src/app.py lines 56-122), the startup model load
(lines 17-35) and the `/api/info` endpoint (lines 125-133) are embedded
shallowly:

* JSON values (the result of `request.get_json()`) become the inductive
  `JVal`; Python `None` from `get_json` is `Option.none`.  JSON numbers are
  modelled as exact rationals `Rat` (the claims' arithmetic - max of two
  probabilities, times 100, rounded to 2 decimals - is exact at this scale);
  the IEEE specials NaN and signed Infinity get their own constructors since the
  spec singles them out.
* Python expressions that can raise become `Except PyErr`; every `try/except`
  of the source is an explicit match on that `Except`.  Messages mirror the
  source's f-strings (built with `++`/`toString`); messages produced inside
  library code (TypeError texts, numpy texts) are reproduced without the
  quote characters.
* The classifier artifact is opaque in the repository (a pickle file, no
  source), so a `Model` is a pair of an arbitrary decision function
  `predict` and an optional probability function `predict_proba`, exactly
  the surface `app.py` touches (`model.predict(X)[0]`,
  `hasattr(model, ...)`, `model.predict_proba(X)[0]`); either may raise.
* `np.array(features).reshape(1, -1)` raises exactly on ragged nested
  sequences (inhomogeneous shape); flat sequences of scalars - numbers,
  NaN, Infinity, strings, None, booleans, dicts - convert without error,
  as numpy does.  `npConvertVal` models this; on success the model receives
  the original element list (its layout is irrelevant to an opaque model).
-/

section

attribute [local semireducible] Rat.mul Rat.add Rat.sub Rat.inv

/-- A JSON-like Python value, as produced by `request.get_json()`. -/
inductive JVal where
  | null
  | bool (b : Bool)
  | num (q : ℚ)
  | nan
  | inf (neg : Bool)
  | str (s : String)
  | list (xs : List JVal)
  | obj (kvs : List (String × JVal))

/-- A raised Python exception, reduced to its `str(e)` message. -/
structure PyErr where
  msg : String
  deriving DecidableEq, Repr

/-- Python type name of a `JVal`, as it appears in TypeError messages. -/
def JVal.typeName : JVal → String
  | .null => "NoneType"
  | .bool _ => "bool"
  | .num q => if q.den = 1 then "int" else "float"
  | .nan => "float"
  | .inf _ => "float"
  | .str _ => "str"
  | .list _ => "list"
  | .obj _ => "dict"

/-- Python truthiness (`not data` at src/app.py:66 tests the negation). -/
def truthy : JVal → Bool
  | .null => false
  | .bool b => b
  | .num q => q ≠ 0
  | .nan => true
  | .inf _ => true
  | .str s => s ≠ ""
  | .list xs => !xs.isEmpty
  | .obj kvs => !kvs.isEmpty

/-- Character-list version of substring containment, used for Python's
`key in string`. -/
def charsLeadWith : List Char → List Char → Bool
  | [], _ => true
  | _ :: _, [] => false
  | a :: as, b :: bs => a == b && charsLeadWith as bs

/-- Does `s` contain `pat` as a contiguous substring (Python `pat in s`)? -/
def charsHaveSub (pat : List Char) : List Char → Bool
  | [] => pat.isEmpty
  | c :: rest => charsLeadWith pat (c :: rest) || charsHaveSub pat rest

/-- Python membership test `k in d` (src/app.py:66): key lookup for dicts,
element equality for lists, substring for strings; TypeError otherwise. -/
def pyContains (d : JVal) (k : String) : Except PyErr Bool :=
  match d with
  | .obj kvs => .ok (kvs.any (fun kv => kv.1 == k))
  | .list xs =>
      .ok (xs.any (fun x => match x with | .str s => s == k | _ => false))
  | .str s => .ok (charsHaveSub k.data s.data)
  | other =>
      .error ⟨"argument of type " ++ other.typeName ++ " is not iterable"⟩

/-- Python subscription `d[k]` with a string key (src/app.py:71). -/
def pyGetItem (d : JVal) (k : String) : Except PyErr JVal :=
  match d with
  | .obj kvs =>
      match kvs.find? (fun kv => kv.1 == k) with
      | some kv => .ok kv.2
      | none => .error ⟨"KeyError: " ++ k⟩
  | .list _ => .error ⟨"list indices must be integers or slices, not str"⟩
  | .str _ => .error ⟨"string indices must be integers"⟩
  | other => .error ⟨other.typeName ++ " object is not subscriptable"⟩

/-- Python `len` (src/app.py:74): defined for sized containers, TypeError
otherwise. -/
def pyLen : JVal → Except PyErr Nat
  | .list xs => .ok xs.length
  | .str s => .ok s.length
  | .obj kvs => .ok kvs.length
  | other => .error ⟨"object of type " ++ other.typeName ++ " has no len()"⟩

/-- Is a value an array scalar for numpy (everything but a nested list)? -/
def isScalarLike : JVal → Bool
  | .list _ => false
  | _ => true

/-- Model of `np.array(xs)` on a Python list (src/app.py:87): succeeds on flat lists
of scalars and on lists of equal-length scalar rows; raises ValueError on
ragged / mixed nesting (inhomogeneous shape).  NaN, Infinity, strings,
None, booleans and dicts are all valid array elements and never raise. -/
def npConvertList (xs : List JVal) : Except PyErr (List JVal) :=
  if xs.all isScalarLike then .ok xs
  else
    match xs with
    | [] => .ok []
    | first :: _ =>
      match first with
      | .list ys =>
          if xs.all (fun x => match x with
              | .list zs => zs.length == ys.length && zs.all isScalarLike
              | _ => false)
          then .ok xs
          else .error ⟨"setting an array element with a sequence. The requested array has an inhomogeneous shape"⟩
      | _ => .error ⟨"setting an array element with a sequence. The requested array has an inhomogeneous shape"⟩

/-- Model of `np.array(features).reshape(1, -1)` for any `features` value that
passed the `len` check: strings and dicts become 0-d object arrays and
reshape fine; lists go through `npConvertList`. -/
def npConvertVal : JVal → Except PyErr (List JVal)
  | .list xs => npConvertList xs
  | other => .ok [other]

/-- The opaque fitted classifier: exactly the surface `app.py` invokes.
`predict` is `model.predict(X)[0]` followed by `int(...)`; `predict_proba`
is `model.predict_proba(X)[0]`, a two-class probability row, present iff
`hasattr(model, ...)` holds.  Both may raise. -/
structure Model where
  predict : List JVal → Except PyErr Int
  predict_proba : Option (List JVal → Except PyErr (ℚ × ℚ))

/-- Round half to even, the tie-breaking Python's `round` uses. -/
def roundHalfEven (q : ℚ) : ℤ :=
  if q - q.floor < mkRat 1 2 then q.floor
  else if mkRat 1 2 < q - q.floor then q.floor + 1
  else if q.floor % 2 = 0 then q.floor else q.floor + 1

/-- Python `round(x, 2)` (src/app.py:110) on the exact rational value. -/
def pyRound2 (q : ℚ) : ℚ := Rat.divInt (roundHalfEven (q * 100)) 100

/-- A response from the handler: an HTTP-200 prediction body
`{diagnosis, confidence, prediction}` or an error body `{error}` with its
status code. -/
inductive Resp where
  | ok (diagnosis : String) (confidence : ℚ) (prediction : Int)
  | err (msg : String) (status : Nat)
  deriving DecidableEq, Repr

/-- HTTP status of a response (a successful body is sent with 200). -/
def Resp.status : Resp → Nat
  | .ok _ _ _ => 200
  | .err _ s => s

/-- The inner prediction `try` block, src/app.py lines 94-112: decision
function, then optional probability function, then the label mapping
`'Malignant' if prediction == 1 else 'Benign'` and
`round(confidence, 2)`. -/
def runInference (m : Model) (X : List JVal) : Except PyErr Resp :=
  match m.predict X with
  | .error e => .error e
  | .ok pred =>
    match m.predict_proba with
    | some f =>
      match f X with
      | .error e => .error e
      | .ok probs =>
          .ok (Resp.ok (if pred = 1 then "Malignant" else "Benign")
                (pyRound2 (max probs.1 probs.2 * 100)) pred)
    | none =>
        .ok (Resp.ok (if pred = 1 then "Malignant" else "Benign")
              (pyRound2 100) pred)

/-- The body of the `/api/predict` handler inside its outer `try`
(src/app.py lines 64-117), with every inner `try/except` resolved in
place; an `Except.error` here is an exception reaching the outer handler
of line 119. -/
def predictCore (model : Option Model) (data : Option JVal) :
    Except PyErr Resp :=
  match data with
  | none => .ok (Resp.err "Invalid request. Expected \"features\" array." 400)
  | some d =>
    if truthy d = false then
      .ok (Resp.err "Invalid request. Expected \"features\" array." 400)
    else
      match pyContains d "features" with
      | .error e => .error e
      | .ok false =>
          .ok (Resp.err "Invalid request. Expected \"features\" array." 400)
      | .ok true =>
        match pyGetItem d "features" with
        | .error e => .error e
        | .ok features =>
          match pyLen features with
          | .error e => .error e
          | .ok n =>
            if n ≠ 8 then
              .ok (Resp.err ("Expected 8 features, got " ++ toString n) 400)
            else
              match model with
              | none =>
                  .ok (Resp.err
                    "Model not loaded. Please check server configuration." 500)
              | some m =>
                match npConvertVal features with
                | .error e =>
                    .ok (Resp.err ("Invalid feature values: " ++ e.msg) 400)
                | .ok X =>
                  match runInference m X with
                  | .error e =>
                      .ok (Resp.err ("Prediction error: " ++ e.msg) 500)
                  | .ok r => .ok r

/-- The full `/api/predict` handler, src/app.py lines 56-122: the outer
`except` converts any escaped exception into a 500 `Server error`. -/
def predict (model : Option Model) (data : Option JVal) : Resp :=
  match predictCore model data with
  | .ok r => r
  | .error e => Resp.err ("Server error: " ++ e.msg) 500

/-- The filesystem/deserializer environment the startup load runs in:
for each of the two artifact paths, `none` means the file is absent,
`some (Except.error e)` means it exists but `joblib.load` raises, and
`some (Except.ok m)` means it deserializes to `m`. -/
structure FileSys where
  primaryLoad : Option (Except PyErr Model)
  fallbackLoad : Option (Except PyErr Model)

/-- The module-level model load, src/app.py lines 19-35: try the primary
path, on absence the fallback path; any raised exception is caught and
yields `model = None`.  Total - it never propagates an exception. -/
def resolveModel (fs : FileSys) : Option Model :=
  match fs.primaryLoad with
  | some (.ok m) => some m
  | some (.error _) => none
  | none =>
    match fs.fallbackLoad with
    | some (.ok m) => some m
    | some (.error _) => none
    | none => none

/-- The fixed feature-name list, src/app.py lines 38-47. -/
def FEATURE_NAMES : List String :=
  ["radius_mean", "texture_mean", "perimeter_mean", "area_mean",
   "smoothness_mean", "compactness_mean", "concavity_mean", "symmetry_mean"]

/-- Body of the `/api/info` response, src/app.py lines 125-133. -/
structure InfoResp where
  name : String
  version : String
  features : List String
  model_loaded : Bool
  deriving DecidableEq, Repr

/-- The `/api/info` handler, src/app.py lines 125-133. -/
def info (model : Option Model) : InfoResp :=
  ⟨"Breast Cancer Prediction API", "1.0.0", FEATURE_NAMES, model.isSome⟩

/-- The process state visible to request handlers: just the module-level
`model` binding, written once at startup and only read afterwards. -/
structure ServerState where
  model : Option Model

/-- Serving one request: src/app.py's `predict` reads `model` and never
assigns it, so the state comes back unchanged. -/
def serveOne (s : ServerState) (p : Option JVal) : Resp × ServerState :=
  (predict s.model p, s)

/-- Serving a whole sequence of requests, threading the state. -/
def serveAll (s : ServerState) (ps : List (Option JVal)) : ServerState :=
  ps.foldl (fun st p => (serveOne st p).2) s

/-- A classifier behaving like the spec's end-to-end scenario A: hard
decision 1, probability row `[0.02, 0.98]`. -/
def probaModel : Model where
  predict := fun _ => .ok 1
  predict_proba := some (fun _ => .ok (mkRat 1 50, mkRat 49 50))

/-- A classifier with only a hard decision function (no `predict_proba`). -/
def okModel : Model where
  predict := fun _ => .ok 1
  predict_proba := none

/-- A misbehaving classifier whose decision function returns the
out-of-range class index 2 without raising. -/
def badModel : Model where
  predict := fun _ => .ok 2
  predict_proba := none

/-- The spec's scenario A request body:
`{"features": [17.99, 10.38, 122.8, 1001, 0.1184, 0.2776, 0.3001, 0.2419]}`. -/
def scenarioA : Option JVal :=
  some (.obj [("features",
    .list [.num (mkRat 1799 100), .num (mkRat 1038 100), .num (mkRat 1228 10),
           .num 1001, .num (mkRat 1184 10000), .num (mkRat 2776 10000),
           .num (mkRat 3001 10000), .num (mkRat 2419 10000)])])

/-- An 8-element feature list whose first element is the float NaN. -/
def nanPayload : Option JVal :=
  some (.obj [("features", .list (JVal.nan :: List.replicate 7 (.num 1)))])

/-- An 8-element feature list that is ragged (nested rows of unequal
length), the one shape `np.array` rejects. -/
def raggedXs : List JVal :=
  JVal.list [.num 1, .num 2] :: JVal.list [.num 3] :: List.replicate 6 (.num 1)

/-- Request body carrying `raggedXs`. -/
def raggedPayload : Option JVal := some (.obj [("features", .list raggedXs)])

example : pyRound2 100 = 100 := by decide
example : pyRound2 (mkRat 49 50 * 100) = 98 := by decide
example : predict (some probaModel) scenarioA = Resp.ok "Malignant" 98 1 := by decide
example : predict (some okModel) nanPayload = Resp.ok "Malignant" 100 1 := by decide
example : predict (some badModel) scenarioA = Resp.ok "Benign" 100 2 := by decide
example : predict none raggedPayload =
    Resp.err "Model not loaded. Please check server configuration." 500 := by decide
example : predict (some okModel) raggedPayload =
    Resp.err "Invalid feature values: setting an array element with a sequence. The requested array has an inhomogeneous shape" 400 := by decide
example : predict (some okModel) (some (.obj [("features", .num 5)])) =
    Resp.err "Server error: object of type int has no len()" 500 := by decide
example : predict (some okModel) (some (.num 5)) =
    Resp.err "Server error: argument of type int is not iterable" 500 := by decide
example : predict (some okModel)
      (some (.obj [("features", .list (List.replicate 5 (.num 1)))])) =
    Resp.err "Expected 8 features, got 5" 400 := by decide

/-! ### Arithmetic facts about the rounding helper -/

theorem ratFloor_eq_floor (q : ℚ) : q.floor = ⌊q⌋ := by
  rw [Rat.floor_def', Rat.floor_def]

theorem le_roundHalfEven {n : ℤ} {q : ℚ} (h : (n : ℚ) ≤ q) :
    n ≤ roundHalfEven q := by
  have hq : q.floor = ⌊q⌋ := ratFloor_eq_floor q
  have hfl : n ≤ ⌊q⌋ := Int.le_floor.mpr h
  unfold roundHalfEven
  simp only [hq]
  split
  · omega
  · split
    · omega
    · split <;> omega

theorem roundHalfEven_le {n : ℤ} {q : ℚ} (h : q ≤ (n : ℚ)) :
    roundHalfEven q ≤ n := by
  have hq : q.floor = ⌊q⌋ := ratFloor_eq_floor q
  have hfl : ⌊q⌋ ≤ n := by
    have h1 : ⌊q⌋ ≤ ⌊(n : ℚ)⌋ := Int.floor_mono h
    simpa using h1
  have hhalf : (0 : ℚ) < mkRat 1 2 := by decide
  unfold roundHalfEven
  simp only [hq]
  split
  · omega
  · rename_i hc
    push_neg at hc
    have hfq : (⌊q⌋ : ℚ) ≤ q - mkRat 1 2 := by linarith
    have hlt : (⌊q⌋ : ℚ) < (n : ℚ) := by linarith
    have hzlt : ⌊q⌋ < n := by exact_mod_cast hlt
    split
    · omega
    · split <;> omega

theorem pyRound2_eq (q : ℚ) :
    pyRound2 q = (roundHalfEven (q * 100) : ℚ) / 100 := by
  rw [pyRound2, Rat.divInt_eq_div]
  norm_num

theorem pyRound2_nonneg {q : ℚ} (h : 0 ≤ q) : 0 ≤ pyRound2 q := by
  rw [pyRound2_eq]
  have h1 : (0 : ℤ) ≤ roundHalfEven (q * 100) :=
    le_roundHalfEven (by push_cast; linarith)
  have h2 : (0 : ℚ) ≤ (roundHalfEven (q * 100) : ℚ) := by exact_mod_cast h1
  positivity

theorem pyRound2_le_hundred {q : ℚ} (h : q ≤ 100) : pyRound2 q ≤ 100 := by
  rw [pyRound2_eq]
  have h1 : roundHalfEven (q * 100) ≤ (10000 : ℤ) :=
    roundHalfEven_le (by push_cast; linarith)
  rw [div_le_iff₀ (by norm_num : (0 : ℚ) < 100)]
  have h2 : (roundHalfEven (q * 100) : ℚ) ≤ (10000 : ℚ) := by exact_mod_cast h1
  linarith

theorem fifty_le_pyRound2 {q : ℚ} (h : 50 ≤ q) : 50 ≤ pyRound2 q := by
  rw [pyRound2_eq]
  have h1 : (5000 : ℤ) ≤ roundHalfEven (q * 100) :=
    le_roundHalfEven (by push_cast; linarith)
  rw [le_div_iff₀ (by norm_num : (0 : ℚ) < 100)]
  have h2 : (5000 : ℚ) ≤ (roundHalfEven (q * 100) : ℚ) := by exact_mod_cast h1
  linarith

theorem pyRound2_hundred : pyRound2 100 = 100 := by decide

/-! ### Claim theorems -/

/-- C6: a features list whose length is not 8 is rejected with status 400
and the message naming both the expected count (8) and the actual count,
for every model handle alike (so the classifier is never consulted). -/
theorem wrongFeatureCount_rejected (model : Option Model) (xs : List JVal)
    (rest : List (String × JVal)) (h : xs.length ≠ 8) :
    predict model (some (JVal.obj (("features", JVal.list xs) :: rest))) =
      Resp.err ("Expected 8 features, got " ++ toString xs.length) 400 := by
  unfold predict predictCore
  simp [truthy, pyContains, pyGetItem, pyLen, h]

/-- C6 witness: the spec's scenario B, a 5-element input, with and without
a loaded model. -/
theorem wrongFeatureCount_rejected_witness :
    predict (some okModel)
        (some (JVal.obj [("features", JVal.list (List.replicate 5 (.num 1)))])) =
      Resp.err "Expected 8 features, got 5" 400 :=
  wrongFeatureCount_rejected (some okModel) (List.replicate 5 (.num 1)) []
    (by decide)

/-- C5: with the handle `Absent` (`model = None`), every request whose
features value has length 8 - numeric or not, valid or not - is answered
with the `ModelUnavailable` error and status 500; the handler returns this
value (no exception escapes) and no inference is attempted. -/
theorem modelUnavailable_rejected (features : JVal)
    (rest : List (String × JVal)) (h : pyLen features = Except.ok 8) :
    predict none (some (JVal.obj (("features", features) :: rest))) =
      Resp.err "Model not loaded. Please check server configuration." 500 := by
  unfold predict predictCore
  simp [truthy, pyContains, pyGetItem, h]

/-- C5 witness: an 8-element vector of NaNs (maximally invalid values)
still gets the `ModelUnavailable` answer when no model is loaded. -/
theorem modelUnavailable_rejected_witness :
    predict none
        (some (JVal.obj [("features", JVal.list (List.replicate 8 JVal.nan))])) =
      Resp.err "Model not loaded. Please check server configuration." 500 :=
  modelUnavailable_rejected (JVal.list (List.replicate 8 JVal.nan)) [] rfl

/-- Any 200 response of the handler was produced by `runInference` on a
present model: the successful path is the one through lines 94-112. -/
theorem predict_ok_inv {model : Option Model} {data : Option JVal}
    {d : String} {c : ℚ} {p : Int}
    (h : predict model data = Resp.ok d c p) :
    ∃ m X, model = some m ∧ runInference m X = Except.ok (Resp.ok d c p) := by
  unfold predict at h
  split at h
  · rename_i r hcore
    subst h
    unfold predictCore at hcore
    repeat' split at hcore
    all_goals simp at hcore
    subst hcore
    exact ⟨_, _, rfl, by assumption⟩
  · simp at h

/-- Field-level inversion of a successful `runInference`: the decision
function returned `p`, the diagnosis is the mapping of `p`, and the
confidence is either the rounded scaled max probability or
`round(100.0, 2)`. -/
theorem runInference_ok_inv {m : Model} {X : List JVal}
    {d : String} {c : ℚ} {p : Int}
    (h : runInference m X = Except.ok (Resp.ok d c p)) :
    m.predict X = Except.ok p ∧
    d = (if p = 1 then "Malignant" else "Benign") ∧
    ((m.predict_proba = none ∧ c = pyRound2 100) ∨
      (∃ f q0 q1, m.predict_proba = some f ∧ f X = Except.ok (q0, q1) ∧
        c = pyRound2 (max q0 q1 * 100))) := by
  unfold runInference at h
  split at h
  · simp at h
  · rename_i pred hpred
    split at h
    · rename_i f hf
      split at h
      · simp at h
      · rename_i probs hprobs
        simp only [Except.ok.injEq, Resp.ok.injEq] at h
        obtain ⟨hd, hc, hp⟩ := h
        subst hp
        refine ⟨hpred, hd.symm, Or.inr ⟨f, probs.1, probs.2, hf, ?_, hc.symm⟩⟩
        simpa using hprobs
    · rename_i hnone
      simp only [Except.ok.injEq, Resp.ok.injEq] at h
      obtain ⟨hd, hc, hp⟩ := h
      subst hp
      exact ⟨hpred, hd.symm, Or.inl ⟨hnone, hc.symm⟩⟩

/-- C3 (amended): on every 200 response, raw class index 1 is reported as
`Malignant` and every other raw index - 0 but also any out-of-range value
the classifier might return - as `Benign`; no third diagnosis string can
be produced.  (The unamendable part of the claim fails: an out-of-range
index is coerced, not reported as a failure - see the counterexample.) -/
theorem diagnosis_mapping {model : Option Model} {data : Option JVal}
    {d : String} {c : ℚ} {p : Int}
    (h : predict model data = Resp.ok d c p) :
    (p = 1 → d = "Malignant") ∧ (p ≠ 1 → d = "Benign") ∧
    (d = "Malignant" ∨ d = "Benign") := by
  obtain ⟨m, X, -, hrun⟩ := predict_ok_inv h
  obtain ⟨-, hd, -⟩ := runInference_ok_inv hrun
  subst hd
  refine ⟨fun h1 => by simp [h1], fun h1 => by simp [h1], ?_⟩
  split
  · exact Or.inl rfl
  · exact Or.inr rfl

/-- C3 witness: the handler maps `probaModel`'s raw index 1 to
`Malignant` on scenario A. -/
theorem diagnosis_mapping_witness :
    ((1 : Int) = 1 → "Malignant" = "Malignant") ∧
    ((1 : Int) ≠ 1 → "Malignant" = "Benign") ∧
    ("Malignant" = "Malignant" ∨ "Malignant" = "Benign") :=
  @diagnosis_mapping (some probaModel) scenarioA "Malignant" 98 1 (by decide)

/-- C3 counterexample: a classifier whose decision function returns the
out-of-range index 2 is not reported as a failure at invocation; the
handler silently coerces it to a 200 `Benign` response carrying raw
index 2. -/
theorem outOfRange_index_coerced :
    predict (some badModel) scenarioA = Resp.ok "Benign" 100 2 ∧
    (predict (some badModel) scenarioA).status = 200 := by
  constructor
  · decide
  · decide

/-- C4: on every 200 response of a present model whose probability
function (when invoked successfully) returns genuine probabilities in
[0, 1], the confidence is in [0, 100]; it is exactly 100 when no
probability function exists, and otherwise it is the rounded
`100 * max` of the returned two-class row. -/
theorem confidence_contract {m : Model} {data : Option JVal}
    {d : String} {c : ℚ} {p : Int}
    (h : predict (some m) data = Resp.ok d c p)
    (hcontract : ∀ f X q0 q1, m.predict_proba = some f →
      f X = Except.ok (q0, q1) → 0 ≤ q0 ∧ q0 ≤ 1 ∧ 0 ≤ q1 ∧ q1 ≤ 1) :
    (0 ≤ c ∧ c ≤ 100) ∧
    (m.predict_proba = none → c = 100) ∧
    (∀ f, m.predict_proba = some f →
      ∃ X q0 q1, f X = Except.ok (q0, q1) ∧
        c = pyRound2 (max q0 q1 * 100)) := by
  obtain ⟨m', X, hm, hrun⟩ := predict_ok_inv h
  injection hm with hm
  subst hm
  obtain ⟨-, -, hconf⟩ := runInference_ok_inv hrun
  rcases hconf with ⟨hnone, hc⟩ | ⟨f, q0, q1, hf, hfx, hc⟩
  · subst hc
    rw [pyRound2_hundred]
    refine ⟨⟨by norm_num, le_refl _⟩, fun _ => rfl, ?_⟩
    intro f hf
    rw [hnone] at hf
    cases hf
  · obtain ⟨h0, h1, h2, h3⟩ := hcontract f X q0 q1 hf hfx
    have hmax0 : 0 ≤ max q0 q1 * 100 := by
      have := le_max_left q0 q1
      nlinarith
    have hmax100 : max q0 q1 * 100 ≤ 100 := by
      have := max_le h1 h3
      nlinarith
    subst hc
    refine ⟨⟨pyRound2_nonneg hmax0, pyRound2_le_hundred hmax100⟩, ?_, ?_⟩
    · intro hnone
      rw [hf] at hnone
      cases hnone
    · intro g hg
      rw [hf] at hg
      injection hg with hg
      subst hg
      exact ⟨X, q0, q1, hfx, rfl⟩

/-- C4 witness: the scenario-A classifier (probabilities 0.02 / 0.98)
yields confidence 98, which satisfies all three parts of the contract. -/
theorem confidence_contract_witness :
    ((0 : ℚ) ≤ 98 ∧ (98 : ℚ) ≤ 100) ∧
    (probaModel.predict_proba = none → (98 : ℚ) = 100) ∧
    (∀ f, probaModel.predict_proba = some f →
      ∃ X q0 q1, f X = Except.ok (q0, q1) ∧
        (98 : ℚ) = pyRound2 (max q0 q1 * 100)) :=
  @confidence_contract probaModel scenarioA "Malignant" 98 1 (by decide)
    (fun f X q0 q1 hf hx => by
      injection hf with hf
      subst hf
      simp only [Except.ok.injEq, Prod.mk.injEq] at hx
      obtain ⟨hq0, hq1⟩ := hx
      subst hq0
      subst hq1
      exact ⟨by decide, by decide, by decide, by decide⟩)

/-- C10: when the probability function returns a genuine two-class
distribution (non-negative entries summing to 1), the reported
confidence of a 200 response is at least 50, since it rounds
`100 * max` of two values whose max is at least one half. -/
theorem confidence_at_least_fifty {m : Model} {data : Option JVal}
    {d : String} {c : ℚ} {p : Int} {f : List JVal → Except PyErr (ℚ × ℚ)}
    (h : predict (some m) data = Resp.ok d c p)
    (hf : m.predict_proba = some f)
    (hdist : ∀ X q0 q1, f X = Except.ok (q0, q1) →
      0 ≤ q0 ∧ 0 ≤ q1 ∧ q0 + q1 = 1) :
    50 ≤ c := by
  obtain ⟨m', X, hm, hrun⟩ := predict_ok_inv h
  injection hm with hm
  subst hm
  obtain ⟨-, -, hconf⟩ := runInference_ok_inv hrun
  rcases hconf with ⟨hnone, -⟩ | ⟨g, q0, q1, hg, hgx, hc⟩
  · rw [hnone] at hf
    cases hf
  · rw [hf] at hg
    injection hg with hg
    subst hg
    obtain ⟨h0, h1, hsum⟩ := hdist X q0 q1 hgx
    subst hc
    apply fifty_le_pyRound2
    have hl := le_max_left q0 q1
    have hr := le_max_right q0 q1
    nlinarith

/-- C10 witness: with probabilities 0.02 / 0.98, the reported
confidence 98 is indeed at least 50. -/
theorem confidence_at_least_fifty_witness :
    predict (some probaModel) scenarioA = Resp.ok "Malignant" 98 1 ∧
    (50 : ℚ) ≤ 98 :=
  ⟨by decide,
    @confidence_at_least_fifty probaModel scenarioA "Malignant" 98 1
      (fun _ => Except.ok (mkRat 1 50, mkRat 49 50)) (by decide) rfl
      (fun X q0 q1 hx => by
        simp only [Except.ok.injEq, Prod.mk.injEq] at hx
        obtain ⟨hq0, hq1⟩ := hx
        subst hq0
        subst hq1
        exact ⟨by decide, by decide, by decide⟩)⟩

/-- C1 (amended): the `Invalid feature values` 400 answer is produced
exactly when numpy array construction raises - that is, for ragged
nested feature lists - and its message carries the conversion failure
detail.  NaN, Infinity and other scalar elements are not caught by this
check (see the counterexample). -/
theorem invalidFeatureValues_rejected (m : Model) (xs : List JVal)
    (rest : List (String × JVal)) (e : PyErr)
    (h8 : xs.length = 8) (hnp : npConvertList xs = Except.error e) :
    predict (some m) (some (JVal.obj (("features", JVal.list xs) :: rest))) =
      Resp.err ("Invalid feature values: " ++ e.msg) 400 := by
  unfold predict predictCore
  simp [truthy, pyContains, pyGetItem, pyLen, npConvertVal, h8, hnp]

/-- C1 witness: a ragged 8-element list is rejected with 400 and the
numpy detail in the message. -/
theorem invalidFeatureValues_rejected_witness :
    predict (some okModel) raggedPayload =
      Resp.err ("Invalid feature values: setting an array element with a sequence. The requested array has an inhomogeneous shape") 400 :=
  invalidFeatureValues_rejected okModel raggedXs []
    ⟨"setting an array element with a sequence. The requested array has an inhomogeneous shape"⟩
    rfl rfl

/-- C1 counterexample: an 8-element features list containing NaN sails
through validation - `np.array` accepts it - and reaches the model; with
a model whose decision function tolerates it, the request gets a 200
response, not the `InvalidFeatureValue` 400 the claim requires. -/
theorem nan_passes_validation :
    predict (some okModel) nanPayload = Resp.ok "Malignant" 100 1 ∧
    (predict (some okModel) nanPayload).status = 200 := by
  constructor
  · decide
  · decide

/-- C2 (amended): the malformed-request check and the feature-count
check do run first, for every handle alike, but the model-presence check
of line 80 comes before the value-conversion check of line 87: an
8-element payload with non-convertible values is answered
`ModelUnavailable` 500 when the handle is absent, and
`InvalidFeatureValue` 400 only when a model is present. -/
theorem validation_model_order (model : Option Model) (xs : List JVal)
    (rest : List (String × JVal)) (e : PyErr)
    (h8 : xs.length = 8) (hnp : npConvertList xs = Except.error e) :
    predict model none =
      Resp.err "Invalid request. Expected \"features\" array." 400 ∧
    (∀ ys rst, ys.length ≠ 8 →
      predict model (some (JVal.obj (("features", JVal.list ys) :: rst))) =
        Resp.err ("Expected 8 features, got " ++ toString ys.length) 400) ∧
    predict model (some (JVal.obj (("features", JVal.list xs) :: rest))) =
      (match model with
        | none => Resp.err "Model not loaded. Please check server configuration." 500
        | some _ => Resp.err ("Invalid feature values: " ++ e.msg) 400) := by
  refine ⟨rfl, ?_, ?_⟩
  · intro ys rst hlen
    unfold predict predictCore
    simp [truthy, pyContains, pyGetItem, pyLen, hlen]
  · match model with
    | none =>
      unfold predict predictCore
      simp [truthy, pyContains, pyGetItem, pyLen, h8]
    | some m =>
      unfold predict predictCore
      simp [truthy, pyContains, pyGetItem, pyLen, npConvertVal, h8, hnp]

/-- C2 witness: the three conjuncts at a concrete ragged 8-element
input with an absent handle. -/
theorem validation_model_order_witness :
    predict none none =
      Resp.err "Invalid request. Expected \"features\" array." 400 ∧
    (∀ ys rst, ys.length ≠ 8 →
      predict none (some (JVal.obj (("features", JVal.list ys) :: rst))) =
        Resp.err ("Expected 8 features, got " ++ toString ys.length) 400) ∧
    predict none (some (JVal.obj (("features", JVal.list raggedXs) :: []))) =
      (match (none : Option Model) with
        | none => Resp.err "Model not loaded. Please check server configuration." 500
        | some _ => Resp.err ("Invalid feature values: setting an array element with a sequence. The requested array has an inhomogeneous shape") 400) :=
  validation_model_order none raggedXs []
    ⟨"setting an array element with a sequence. The requested array has an inhomogeneous shape"⟩
    rfl rfl

/-- C2 counterexample: an 8-element payload with non-convertible (ragged)
values does produce `ModelUnavailable` 500 when the handle is absent,
which the claim rules out. -/
theorem absent_model_beats_value_check :
    predict none raggedPayload =
      Resp.err "Model not loaded. Please check server configuration." 500 ∧
    (predict none raggedPayload).status = 500 := by
  constructor
  · decide
  · decide

/-- C7 (amended): the `MalformedRequest` 400 answer is returned when the
payload is missing, falsy, or a container (dict, list or string) that
does not contain "features"; a truthy non-container payload or a
"features" value with no length instead raises a TypeError that the
blanket handler turns into a 500 `Server error` (see the
counterexample). -/
theorem malformedRequest_rejected (model : Option Model) (data : Option JVal)
    (h : data = none ∨ ∃ d, data = some d ∧
      (truthy d = false ∨ pyContains d "features" = Except.ok false)) :
    predict model data =
      Resp.err "Invalid request. Expected \"features\" array." 400 := by
  rcases h with rfl | ⟨d, rfl, hd | hd⟩
  · rfl
  · unfold predict predictCore
    simp [hd]
  · unfold predict predictCore
    by_cases ht : truthy d = false
    · simp [ht]
    · simp [ht, hd]

/-- C7 witness: a dict payload without the "features" key gets the
malformed-request 400, for a present model. -/
theorem malformedRequest_rejected_witness :
    predict (some okModel) (some (JVal.obj [("inputs", JVal.num 1)])) =
      Resp.err "Invalid request. Expected \"features\" array." 400 :=
  malformedRequest_rejected (some okModel)
    (some (JVal.obj [("inputs", JVal.num 1)]))
    (Or.inr ⟨JVal.obj [("inputs", JVal.num 1)], rfl, Or.inr rfl⟩)

/-- C7 counterexample: a payload whose "features" value is not a
sequence (the number 5) is not answered with a 400 `MalformedRequest`;
the `len()` TypeError escapes to the blanket handler and comes back as a
500 `Server error`. -/
theorem nonSized_features_gives_500 :
    predict (some okModel) (some (JVal.obj [("features", JVal.num 5)])) =
      Resp.err "Server error: object of type int has no len()" 500 ∧
    (predict (some okModel)
        (some (JVal.obj [("features", JVal.num 5)]))).status = 500 := by
  constructor
  · decide
  · decide

/-- C8: the startup load takes the primary artifact when it
deserializes, falls back to the secondary only when the primary file is
absent, and returns `Absent` (never an exception - `resolveModel` is a
total function into `Option Model`) when both are absent or
deserialization raises; `/api/info` then reports the handle status. -/
theorem resolver_fallback_and_absent (fs : FileSys) :
    (∀ m, fs.primaryLoad = some (Except.ok m) → resolveModel fs = some m) ∧
    (∀ m, fs.primaryLoad = none → fs.fallbackLoad = some (Except.ok m) →
      resolveModel fs = some m) ∧
    (∀ e, fs.primaryLoad = some (Except.error e) → resolveModel fs = none) ∧
    (∀ e, fs.primaryLoad = none → fs.fallbackLoad = some (Except.error e) →
      resolveModel fs = none) ∧
    (fs.primaryLoad = none → fs.fallbackLoad = none →
      resolveModel fs = none) ∧
    (info (resolveModel fs)).model_loaded = (resolveModel fs).isSome := by
  refine ⟨?_, ?_, ?_, ?_, ?_, rfl⟩ <;> intros <;> simp [resolveModel, *]

/-- C8 witness: both artifact paths absent - the process gets the
`Absent` handle and `/api/info` reports `model_loaded = false`. -/
theorem resolver_fallback_and_absent_witness :
    resolveModel ⟨none, none⟩ = none ∧
    (info (resolveModel ⟨none, none⟩)).model_loaded = false := by
  have h := resolver_fallback_and_absent ⟨none, none⟩
  have h1 := h.2.2.2.2.1 rfl rfl
  refine ⟨h1, ?_⟩
  rw [h.2.2.2.2.2, h1]
  rfl

theorem serveAll_state (s : ServerState) (ps : List (Option JVal)) :
    serveAll s ps = s := by
  induction ps with
  | nil => rfl
  | cons p ps ih => exact ih

/-- C9: the handler never writes the model handle, so the response to a
fixed payload is the same whatever requests were served before - in
particular two repeated calls with the same valid vector and a present
handle return identical diagnosis, confidence and raw class index
(`predict` is a pure function of handle and payload; the embedding has
no other state to read). -/
theorem predict_deterministic (s : ServerState)
    (ps1 ps2 : List (Option JVal)) (p : Option JVal) :
    (serveOne (serveAll s ps1) p).1 = (serveOne (serveAll s ps2) p).1 := by
  rw [serveAll_state, serveAll_state]

end
